import Mathlib

/-!
Shallow embedding of keepalived's global configuration parser
(`keepalived/core/global_parser.c`): the directive handlers, the numeric
validators, and the sub-option scanner used by `lvs_timeouts` and
`lvs_sync_daemon`, together with theorems about the behaviour of those
handlers on token lines.

Token lines are modelled as `Option (List String)`: `none` models a NULL
`vector_t *` argument (the `!strvec` guard in the C code), and a list models
the tokens of one configuration line, token 0 being the directive name.
Out-of-bounds `strvec_slot` accesses (undefined behaviour in C) are modelled
benignly as the empty string; all theorems below only evaluate handlers on
token lines that are long enough for every slot the handler reads, except
where the C code itself reads no slot at all.
-/

namespace KeepalivedGlobalParser

/-! ## Model of the C standard library numeric conversions -/

def LONG_MAX : Int := 2 ^ 63 - 1

def LONG_MIN : Int := -(2 ^ 63)

/-- `TIMER_HZ` from `timer.h` (microseconds per second). -/
def TIMER_HZ : Nat := 1000000

/-- `LVS_MAX_TIMEOUT` = 86400*31 (31 days), defined in `global_parser.c`. -/
def LVS_MAX_TIMEOUT : Int := 86400 * 31

/-- The `isspace` test of the C locale: space, \t, \n, \v, \f, \r. -/
def isSpaceChar (c : Char) : Bool :=
  c = ' ' || c = '\t' || c = '\n' || c = '\r' || c = '\x0b' || c = '\x0c'

/-- Value of a list of decimal digit characters. -/
def digitsVal (ds : List Char) : Nat :=
  ds.foldl (fun a c => a * 10 + (c.toNat - 48)) 0

/-- C `strtol(s, &endptr, 10)`: skip leading whitespace, optional sign,
decimal digits; the returned list is the remainder at `endptr` (on a failed
conversion `endptr` is reset to the start of the input).  Out-of-range
values saturate at `LONG_MAX` / `LONG_MIN` as in C. -/
def strtol (s : List Char) : Int × List Char :=
  let s1 := s.dropWhile isSpaceChar
  let neg := match s1 with | '-' :: _ => true | _ => false
  let s2 := match s1 with | '-' :: t => t | '+' :: t => t | _ => s1
  let ds := s2.takeWhile Char.isDigit
  if ds.isEmpty then (0, s)
  else
    let v : Int := if neg then -(digitsVal ds : Int) else (digitsVal ds : Int)
    (if v < LONG_MIN then LONG_MIN else if v > LONG_MAX then LONG_MAX else v,
     s2.dropWhile Char.isDigit)

def strtolS (s : String) : Int × List Char := strtol s.data

/-- C `strtoul(s, &endptr, 10)`: like `strtol` but producing an
`unsigned long`; a leading minus sign negates in unsigned (mod `2^64`)
arithmetic, and overflow saturates at `ULONG_MAX`. -/
def strtoul (s : List Char) : Nat × List Char :=
  let s1 := s.dropWhile isSpaceChar
  let neg := match s1 with | '-' :: _ => true | _ => false
  let s2 := match s1 with | '-' :: t => t | '+' :: t => t | _ => s1
  let ds := s2.takeWhile Char.isDigit
  if ds.isEmpty then (0, s)
  else
    let n := digitsVal ds
    let u := if n ≥ 2 ^ 64 then 2 ^ 64 - 1 else n
    ((if neg then (2 ^ 64 - u) % 2 ^ 64 else u), s2.dropWhile Char.isDigit)

def strtoulS (s : String) : Nat × List Char := strtoul s.data

/-- Conversion of a mathematical integer to a 32-bit two's-complement `int`
(the gcc behaviour of an out-of-range integer-to-`int` cast). -/
def wrapInt32 (v : Int) : Int := (v + 2 ^ 31) % 2 ^ 32 - 2 ^ 31

/-- C `atoi`, glibc implementation: `(int) strtol(s, NULL, 10)`. -/
def atoiS (s : String) : Int := wrapInt32 (strtolS s).1

/-! ## Model of socket addresses and address resolution

`inet_stosockaddr` lives in `lib/utils.c`, which is not part of the sources
under verification. -/

/-- A resolved socket address: family plus host-order address bits. -/
inductive SockAddr where
  | unspec
  | v4 (addr : Nat)
  | v6 (addr : Nat)
deriving DecidableEq, Repr

/-- Split a character list at every `'.'`. -/
def splitDots : List Char → List (List Char)
  | [] => [[]]
  | '.' :: t => [] :: splitDots t
  | c :: t =>
      match splitDots t with
      | h :: r => (c :: h) :: r
      | [] => [[c]]

/-- One decimal component of a dotted quad: nonempty, all digits, ≤ 255. -/
def parseQuad (s : List Char) : Option Nat :=
  if s ≠ [] ∧ s.all Char.isDigit ∧ s.length ≤ 3 then
    if digitsVal s ≤ 255 then some (digitsVal s) else none
  else none

/-- Numeric parse of an IPv4 dotted-quad literal to host-order bits. -/
def parseIPv4 (s : String) : Option Nat :=
  match (splitDots s.data).mapM parseQuad with
  | some [a, b, c, d] => some (((a * 256 + b) * 256 + c) * 256 + d)
  | _ => none

/-- Modelled from the spec: `inet_stosockaddr` (in `lib/utils.c`, outside the
verified sources) performs numeric-literal socket-address parsing, yielding a
resolved address and family or a failure.  The model resolves IPv4
dotted-quad literals; other syntactic forms are treated as resolution
failures, which is all the theorems below exercise.  On failure the
destination is modelled as left unchanged. -/
def inet_stosockaddr (s : String) : Option SockAddr :=
  (parseIPv4 s).map SockAddr.v4

/-- `IN_MULTICAST` for a host-order IPv4 address: top four bits are 1110. -/
def isMulticastV4 (a : Nat) : Bool := a / 2 ^ 28 = 14

/-- `IN6_IS_ADDR_MULTICAST`: first byte of the address is 0xff. -/
def isMulticastV6 (a : Nat) : Bool := a / 2 ^ 120 = 255

/-! ## The Global Configuration record

The fields of `struct _data` (`global_data.h`) touched by the handlers
modelled here, plus the `use_pid_dir` / `child_wait_time` process globals and
an explicit diagnostics channel `logs` modelling the `log_message` sink. -/

structure GlobalData where
  linkbeat_use_polling : Bool
  smtp_connection_to : Nat
  lvs_tcp_timeout : Int
  lvs_tcpfin_timeout : Int
  lvs_udp_timeout : Int
  lvs_syncd_ifname : Option String
  lvs_syncd_vrrp_name : Option String
  lvs_syncd_syncid : Nat
  lvs_syncd_sync_maxlen : Nat
  lvs_syncd_mcast_port : Nat
  lvs_syncd_mcast_ttl : Nat
  lvs_syncd_mcast_group : SockAddr
  lvs_flush : Bool
  vrrp_mcast_group4 : SockAddr
  vrrp_mcast_group6 : SockAddr
  vrrp_garp_delay : Nat
  vrrp_garp_rep : Nat
  vrrp_garp_refresh : Nat
  vrrp_garp_refresh_rep : Nat
  vrrp_iptables_inchain : String
  vrrp_iptables_outchain : String
  vrrp_process_priority : Int
  checker_process_priority : Int
  bfd_process_priority : Int
  vrrp_realtime_priority : Int
  checker_realtime_priority : Int
  bfd_realtime_priority : Int
  instance_name : Option String
  network_namespace : Option String
  use_pid_dir : Bool
  child_wait_time : Nat
  logs : List String
deriving DecidableEq, Repr

/-- A fresh configuration before any directive has run: zero-initialised
scalars, unset pointers, empty diagnostics channel. -/
def initGD : GlobalData where
  linkbeat_use_polling := false
  smtp_connection_to := 0
  lvs_tcp_timeout := 0
  lvs_tcpfin_timeout := 0
  lvs_udp_timeout := 0
  lvs_syncd_ifname := none
  lvs_syncd_vrrp_name := none
  lvs_syncd_syncid := 0
  lvs_syncd_sync_maxlen := 0
  lvs_syncd_mcast_port := 0
  lvs_syncd_mcast_ttl := 0
  lvs_syncd_mcast_group := SockAddr.unspec
  lvs_flush := false
  vrrp_mcast_group4 := SockAddr.unspec
  vrrp_mcast_group6 := SockAddr.unspec
  vrrp_garp_delay := 0
  vrrp_garp_rep := 0
  vrrp_garp_refresh := 0
  vrrp_garp_refresh_rep := 0
  vrrp_iptables_inchain := ""
  vrrp_iptables_outchain := ""
  vrrp_process_priority := 0
  checker_process_priority := 0
  bfd_process_priority := 0
  vrrp_realtime_priority := 0
  checker_realtime_priority := 0
  bfd_realtime_priority := 0
  instance_name := none
  network_namespace := none
  use_pid_dir := false
  child_wait_time := 0
  logs := []

/-- `strvec_slot(strvec, n)`: slot `n` of the token line.  A NULL vector or
out-of-range slot (undefined behaviour in C) is modelled as `""`. -/
def slotD (sv : Option (List String)) (n : Nat) : String :=
  (sv.getD []).getD n ""

/-- `set_value(strvec)` from `lib/parser.c` (outside the verified sources):
returns a copy of token 1 of the line. -/
def set_value (line : List String) : String := line.getD 1 ""

/-! ## lvs_timeouts: sub-option scanner (global_parser.c lines 214-268) -/

/-- Effect of a `tcp <v>` sub-option on the configuration: validated by
`strtol` with full-consumption check and range 0..`LVS_MAX_TIMEOUT`. -/
def applyTcp (v : String) (g : GlobalData) : GlobalData :=
  if (strtolS v).2 ≠ [] ∨ (strtolS v).1 < 0 ∨ (strtolS v).1 > LVS_MAX_TIMEOUT then
    {g with logs := g.logs ++ ["Invalid lvs_timeout tcp (" ++ v ++ ") - ignoring"]}
  else
    {g with lvs_tcp_timeout := (strtolS v).1}

/-- Effect of a `tcpfin <v>` sub-option: range 1..`LVS_MAX_TIMEOUT`. -/
def applyTcpfin (v : String) (g : GlobalData) : GlobalData :=
  if (strtolS v).2 ≠ [] ∨ (strtolS v).1 < 1 ∨ (strtolS v).1 > LVS_MAX_TIMEOUT then
    {g with logs := g.logs ++ ["Invalid lvs_timeout tcpfin (" ++ v ++ ") - ignoring"]}
  else
    {g with lvs_tcpfin_timeout := (strtolS v).1}

/-- Effect of a `udp <v>` sub-option: range 1..`LVS_MAX_TIMEOUT`. -/
def applyUdp (v : String) (g : GlobalData) : GlobalData :=
  if (strtolS v).2 ≠ [] ∨ (strtolS v).1 < 1 ∨ (strtolS v).1 > LVS_MAX_TIMEOUT then
    {g with logs := g.logs ++ ["Invalid lvs_timeout udp (" ++ v ++ ") - ignoring"]}
  else
    {g with lvs_udp_timeout := (strtolS v).1}

/-- The `for` loop of `lvs_timeouts`, scanning tokens 1.. of the line:
a recognized sub-keyword consumes its value token (cursor +2), a recognized
sub-keyword in last position logs "no value" and ends the scan, an
unrecognized token logs and is skipped (cursor +1). -/
def lvsTimeoutsScan : List String → GlobalData → GlobalData
  | [], g => g
  | [k], g =>
      if k = "tcp" then
        {g with logs := g.logs ++ ["No value specified for lvs_timout tcp - ignoring"]}
      else if k = "tcpfin" then
        {g with logs := g.logs ++ ["No value specified for lvs_timeout tcpfin - ignoring"]}
      else if k = "udp" then
        {g with logs := g.logs ++ ["No value specified for lvs_timeout udp - ignoring"]}
      else
        {g with logs := g.logs ++ ["Unknown option " ++ k ++ " specified for lvs_timeouts"]}
  | k :: v :: rest, g =>
      if k = "tcp" then lvsTimeoutsScan rest (applyTcp v g)
      else if k = "tcpfin" then lvsTimeoutsScan rest (applyTcpfin v g)
      else if k = "udp" then lvsTimeoutsScan rest (applyUdp v g)
      else lvsTimeoutsScan (v :: rest)
        {g with logs := g.logs ++ ["Unknown option " ++ k ++ " specified for lvs_timeouts"]}

/-- The `lvs_timeouts` directive handler. -/
def lvs_timeouts (sv : Option (List String)) (g : GlobalData) : GlobalData :=
  let line := sv.getD []
  if line.length < 3 then
    {g with logs := g.logs ++ ["lvs_timeouts requires at least one option"]}
  else
    lvsTimeoutsScan line.tail g

/-! ## lvs_sync_daemon (global_parser.c lines 270-392) -/

/-- `IP_VS_IFNAME_MAXLEN` from the kernel's `ip_vs.h` (outside the verified
sources): 16.  The theorems below only use argument strings well inside or
well beyond this bound, so they do not depend on the exact value. -/
def IP_VS_IFNAME_MAXLEN : Nat := 16

/-- The deprecation diagnostic of the legacy positional syncid branch. -/
def syncidDeprecationMsg : String :=
  "Please use keyword \"id\" before lvs_sync_daemon syncid value"

/-- The diagnostic for an invalid syncid value. -/
def invalidSyncidMsg (v : String) : String :=
  "Invalid syncid (" ++ v ++ ") - defaulting to vrid"

/-- The diagnostic for an invalid value of a named numeric sub-keyword of
`lvs_sync_daemon` (`id`, `maxlen`, `port`, `ttl`). -/
def subKeyInvalidMsg (k v : String) : String :=
  if k = "id" then invalidSyncidMsg v
  else "Invalid lvs_sync_daemon " ++ k ++ " (" ++ v ++ ") - ignoring"

/-- The legacy positional syncid branch body (after its deprecation
diagnostic): range-check token 3 as a 0..255 identifier. -/
def legacySyncid (tok : String) (g : GlobalData) : GlobalData :=
  if (strtoulS tok).2 ≠ [] ∨ (strtoulS tok).1 > 255 then
    {g with logs := g.logs ++ [invalidSyncidMsg tok]}
  else
    {g with lvs_syncd_syncid := (strtoulS tok).1}

/-- Effect of a `group <v>` sub-option: numeric address resolution into the
multicast-group field, then the family-appropriate multicast check, forcing
the field back to unspecified (with a diagnostic) when it fails.  As in the C
code, the multicast check inspects whatever the field holds, even if the
resolution just failed. -/
def groupApply (v : String) (g : GlobalData) : GlobalData :=
  let g1 := match inet_stosockaddr v with
    | some a => {g with lvs_syncd_mcast_group := a}
    | none => {g with logs := g.logs ++ ["Invalid lvs_sync_daemon group (" ++ v ++ ") - ignoring"]}
  match g1.lvs_syncd_mcast_group with
  | SockAddr.v4 a =>
      if isMulticastV4 a then g1
      else {g1 with lvs_syncd_mcast_group := SockAddr.unspec,
                    logs := g1.logs ++ ["lvs_sync_daemon group address " ++ v ++ " is not multicast - ignoring"]}
  | SockAddr.v6 a =>
      if isMulticastV6 a then g1
      else {g1 with lvs_syncd_mcast_group := SockAddr.unspec,
                    logs := g1.logs ++ ["lvs_sync_daemon group address " ++ v ++ " is not multicast - ignoring"]}
  | SockAddr.unspec => g1

/-- The named sub-keyword scan of `lvs_sync_daemon` (`id`, `maxlen`, `port`,
`ttl`, `group`), with the same cursor discipline as `lvsTimeoutsScan`. -/
def lvsSyncdScan : List String → GlobalData → GlobalData
  | [], g => g
  | [k], g =>
      if k = "id" then
        {g with logs := g.logs ++ ["No value specified for lvs_sync_daemon id, defaulting to vrid"]}
      else if k = "maxlen" then
        {g with logs := g.logs ++ ["No value specified for lvs_sync_daemon maxlen - ignoring"]}
      else if k = "port" then
        {g with logs := g.logs ++ ["No value specified for lvs_sync_daemon port - ignoring"]}
      else if k = "ttl" then
        {g with logs := g.logs ++ ["No value specified for lvs_sync_daemon ttl - ignoring"]}
      else if k = "group" then
        {g with logs := g.logs ++ ["No value specified for lvs_sync_daemon group - ignoring"]}
      else
        {g with logs := g.logs ++ ["Unknown option " ++ k ++ " specified for lvs_sync_daemon"]}
  | k :: v :: rest, g =>
      if k = "id" then
        lvsSyncdScan rest
          (if (strtoulS v).2 ≠ [] ∨ (strtoulS v).1 > 255 then
            {g with logs := g.logs ++ [subKeyInvalidMsg "id" v]}
          else {g with lvs_syncd_syncid := (strtoulS v).1})
      else if k = "maxlen" then
        lvsSyncdScan rest
          (if (strtoulS v).2 ≠ [] ∨ (strtoulS v).1 = 0 ∨ (strtoulS v).1 > 65535 - 20 - 8 then
            {g with logs := g.logs ++ [subKeyInvalidMsg "maxlen" v]}
          else {g with lvs_syncd_sync_maxlen := (strtoulS v).1})
      else if k = "port" then
        lvsSyncdScan rest
          (if (strtoulS v).2 ≠ [] ∨ (strtoulS v).1 = 0 ∨ (strtoulS v).1 > 65535 then
            {g with logs := g.logs ++ [subKeyInvalidMsg "port" v]}
          else {g with lvs_syncd_mcast_port := (strtoulS v).1})
      else if k = "ttl" then
        lvsSyncdScan rest
          (if (strtoulS v).2 ≠ [] ∨ (strtoulS v).1 = 0 ∨ (strtoulS v).1 > 255 then
            {g with logs := g.logs ++ [subKeyInvalidMsg "ttl" v]}
          else {g with lvs_syncd_mcast_ttl := (strtoulS v).1})
      else if k = "group" then
        lvsSyncdScan rest (groupApply v g)
      else
        lvsSyncdScan (v :: rest)
          {g with logs := g.logs ++ ["Unknown option " ++ k ++ " specified for lvs_sync_daemon"]}

/-- `isdigit(s[0])`: the C legacy-branch test reads only the first character
(an empty token reads the terminating NUL, which is not a digit). -/
def firstCharIsDigit (s : String) : Bool :=
  match s.data with
  | [] => false
  | c :: _ => c.isDigit

/-- The `lvs_sync_daemon` directive handler: duplicate check, arity check,
interface-name length checks, mandatory leading arguments, the
backward-compatible positional syncid branch, then the named sub-keyword
scan. -/
def lvs_syncd_handler (sv : Option (List String)) (g : GlobalData) : GlobalData :=
  let line := sv.getD []
  if g.lvs_syncd_ifname ≠ none then
    {g with logs := g.logs ++ ["lvs_sync_daemon has already been specified - ignoring"]}
  else if line.length < 3 then
    {g with logs := g.logs ++ ["lvs_sync_daemon requires interface, VRRP instance"]}
  else if IP_VS_IFNAME_MAXLEN ≤ (line.getD 1 "").length then
    {g with logs := g.logs ++ ["lvs_sync_daemon interface name '" ++ line.getD 1 "" ++ "' too long - ignoring"]}
  else if IP_VS_IFNAME_MAXLEN ≤ (line.getD 2 "").length then
    {g with logs := g.logs ++ ["lvs_sync_daemon vrrp interface name '" ++ line.getD 2 "" ++ "' too long - ignoring"]}
  else
    let g1 := {g with lvs_syncd_ifname := some (set_value line),
                      lvs_syncd_vrrp_name := some (line.getD 2 "")}
    if 4 ≤ line.length ∧ firstCharIsDigit (line.getD 3 "") then
      lvsSyncdScan (line.drop 4)
        (legacySyncid (line.getD 3 "") {g1 with logs := g1.logs ++ [syncidDeprecationMsg]})
    else
      lvsSyncdScan (line.drop 3) g1

/-! ## Simple value handlers (smtp, garp, mcast, version) -/

/-- `smtp_connect_timeout`: `strtoul(slot 1, NULL, 10) * TIMER_HZ`, stored
unconditionally (no endptr check, no range check, no diagnostic); the
multiplication is unsigned long arithmetic. -/
def smtpto_handler (sv : Option (List String)) (g : GlobalData) : GlobalData :=
  {g with smtp_connection_to := (strtoulS (slotD sv 1)).1 * TIMER_HZ % 2 ^ 64}

/-- `vrrp_garp_master_delay`: `(unsigned)strtoul(...) * TIMER_HZ`, stored
unconditionally; the cast then multiplication are 32-bit unsigned. -/
def vrrp_garp_delay_handler (sv : Option (List String)) (g : GlobalData) : GlobalData :=
  {g with vrrp_garp_delay := (strtoulS (slotD sv 1)).1 % 2 ^ 32 * TIMER_HZ % 2 ^ 32}

/-- `vrrp_garp_master_repeat`: `(unsigned)strtoul(...)`, then raised to 1 if
below 1, with no diagnostic. -/
def vrrp_garp_rep_handler (sv : Option (List String)) (g : GlobalData) : GlobalData :=
  let v := (strtoulS (slotD sv 1)).1 % 2 ^ 32
  {g with vrrp_garp_rep := if v < 1 then 1 else v}

/-- `vrrp_garp_master_refresh`: stored unconditionally. -/
def vrrp_garp_refresh_handler (sv : Option (List String)) (g : GlobalData) : GlobalData :=
  {g with vrrp_garp_refresh := (strtoulS (slotD sv 1)).1 % 2 ^ 32}

/-- `vrrp_garp_master_refresh_repeat`: like `vrrp_garp_master_repeat`. -/
def vrrp_garp_refresh_rep_handler (sv : Option (List String)) (g : GlobalData) : GlobalData :=
  let v := (strtoulS (slotD sv 1)).1 % 2 ^ 32
  {g with vrrp_garp_refresh_rep := if v < 1 then 1 else v}

/-- `vrrp_mcast_group4`: numeric address resolution of token 1 into the
IPv4 multicast-group field; a resolution failure logs and leaves the field;
no multicast-membership check is performed. -/
def vrrp_mcast_group4_handler (sv : Option (List String)) (g : GlobalData) : GlobalData :=
  match inet_stosockaddr (slotD sv 1) with
  | some a => {g with vrrp_mcast_group4 := a}
  | none =>
      {g with logs := g.logs ++
        ["Configuration error: Cant parse vrrp_mcast_group4 [" ++ slotD sv 1 ++ "]. Skipping"]}

/-- `vrrp_mcast_group6`: same shape as `vrrp_mcast_group4`. -/
def vrrp_mcast_group6_handler (sv : Option (List String)) (g : GlobalData) : GlobalData :=
  match inet_stosockaddr (slotD sv 1) with
  | some a => {g with vrrp_mcast_group6 := a}
  | none =>
      {g with logs := g.logs ++
        ["Configuration error: Cant parse vrrp_mcast_group6 [" ++ slotD sv 1 ++ "]. Skipping"]}

/-! ## vrrp_iptables (global_parser.c lines 568-587)

The chain-name buffers are `char[N]` fields of `struct _data`; their size `N`
is declared in `global_data.h`, outside the verified sources, and modelled
here as 32.  The handler rejects a name of length ≥ N-1. -/

def IPTABLES_CHAIN_BUF_LEN : Nat := 32

/-- `vrrp_iptables`: first resets both chain names to the empty string, then
copies token 1 (and token 2) in, rejecting over-length names with a
diagnostic. -/
def vrrp_iptables_handler (sv : Option (List String)) (g : GlobalData) : GlobalData :=
  let line := sv.getD []
  let g0 := {g with vrrp_iptables_inchain := "", vrrp_iptables_outchain := ""}
  if 2 ≤ line.length then
    if IPTABLES_CHAIN_BUF_LEN - 1 ≤ (line.getD 1 "").length then
      {g0 with logs := g0.logs ++ ["VRRP Error : iptables in chain name too long - ignored"]}
    else
      let g1 := {g0 with vrrp_iptables_inchain := line.getD 1 ""}
      if 3 ≤ line.length then
        if IPTABLES_CHAIN_BUF_LEN - 1 ≤ (line.getD 2 "").length then
          {g1 with logs := g1.logs ++ ["VRRP Error : iptables out chain name too long - ignored"]}
        else
          {g1 with vrrp_iptables_outchain := line.getD 2 ""}
      else g1
  else g0

/-! ## Priority validators and handlers (global_parser.c lines 400-463) -/

/-- `get_priority`: parse token 1 with `atoi`; an arity failure or an
out-of-range value ([-20, 19]) logs and yields 0, which the caller stores
unconditionally. -/
def get_priority (process : String) (line : List String) : Int × List String :=
  if line.length < 2 then
    (0, ["No " ++ process ++ " process priority specified"])
  else if atoiS (line.getD 1 "") < -20 ∨ atoiS (line.getD 1 "") > 19 then
    (0, ["Invalid " ++ process ++ " process priority specified"])
  else
    (atoiS (line.getD 1 ""), [])

/-- `get_realtime_priority`: parse token 1 with `atoi` and clamp it
sequentially to the scheduler bounds `mn`/`mx` (the results of
`sched_get_priority_min/max(SCHED_RR)`, external inputs modelled as
parameters), logging a corrective diagnostic for each applied clamp; an
arity failure yields -1. -/
def get_realtime_priority (mn mx : Int) (process : String) (line : List String) :
    Int × List String :=
  if line.length < 2 then
    (-1, ["No " ++ process ++ " process real-time priority specified"])
  else
    let p0 := atoiS (line.getD 1 "")
    let r1 := if p0 < mn then
        (mn, ["" ++ process ++ " process real-time priority " ++ toString p0 ++
              " less than minimum " ++ toString mn ++ " - setting to minimum"])
      else (p0, [])
    if r1.1 > mx then
      (mx, r1.2 ++ ["" ++ process ++ " process real-time priority " ++ toString r1.1 ++
            " greater than maximum " ++ toString mx ++ " - setting to maximum"])
    else r1

/-- `vrrp_priority`: stores the result of `get_priority` unconditionally. -/
def vrrp_prio_handler (sv : Option (List String)) (g : GlobalData) : GlobalData :=
  let r := get_priority "vrrp" (sv.getD [])
  {g with vrrp_process_priority := r.1, logs := g.logs ++ r.2}

/-- `checker_priority`. -/
def checker_prio_handler (sv : Option (List String)) (g : GlobalData) : GlobalData :=
  let r := get_priority "checker" (sv.getD [])
  {g with checker_process_priority := r.1, logs := g.logs ++ r.2}

/-- `bfd_priority`. -/
def bfd_prio_handler (sv : Option (List String)) (g : GlobalData) : GlobalData :=
  let r := get_priority "bfd" (sv.getD [])
  {g with bfd_process_priority := r.1, logs := g.logs ++ r.2}

/-- `vrrp_rt_priority`: stores the result of `get_realtime_priority` only
when it is non-negative. -/
def vrrp_rt_priority_handler (mn mx : Int) (sv : Option (List String))
    (g : GlobalData) : GlobalData :=
  let r := get_realtime_priority mn mx "vrrp" (sv.getD [])
  if 0 ≤ r.1 then {g with vrrp_realtime_priority := r.1, logs := g.logs ++ r.2}
  else {g with logs := g.logs ++ r.2}

/-- `checker_rt_priority`. -/
def checker_rt_priority_handler (mn mx : Int) (sv : Option (List String))
    (g : GlobalData) : GlobalData :=
  let r := get_realtime_priority mn mx "checker" (sv.getD [])
  if 0 ≤ r.1 then {g with checker_realtime_priority := r.1, logs := g.logs ++ r.2}
  else {g with logs := g.logs ++ r.2}

/-- `bfd_rt_priority`. -/
def bfd_rt_priority_handler (mn mx : Int) (sv : Option (List String))
    (g : GlobalData) : GlobalData :=
  let r := get_realtime_priority mn mx "BFD" (sv.getD [])
  if 0 ≤ r.1 then {g with bfd_realtime_priority := r.1, logs := g.logs ++ r.2}
  else {g with logs := g.logs ++ r.2}

/-! ## Flag, first-wins and guarded handlers -/

/-- `linkbeat_use_polling`: NULL-guarded, then sets the flag. -/
def use_polling_handler (sv : Option (List String)) (g : GlobalData) : GlobalData :=
  match sv with
  | none => g
  | some _ => {g with linkbeat_use_polling := true}

/-- `lvs_flush`: ignores its argument entirely and sets the flag. -/
def lvs_flush_handler (_ : Option (List String)) (g : GlobalData) : GlobalData :=
  {g with lvs_flush := true}

/-- `use_pid_dir`: NULL-guarded, then sets the flag. -/
def use_pid_dir_handler (sv : Option (List String)) (g : GlobalData) : GlobalData :=
  match sv with
  | none => g
  | some _ => {g with use_pid_dir := true}

/-- `child_wait_time`: NULL-guarded; rejects a token with trailing
non-numeric characters (field unchanged, diagnostic), otherwise stores. -/
def child_wait_handler (sv : Option (List String)) (g : GlobalData) : GlobalData :=
  match sv with
  | none => g
  | some line =>
      if (strtoulS (line.getD 1 "")).2 ≠ [] then
        {g with logs := g.logs ++ ["Invalid child_wait_time " ++ line.getD 1 ""]}
      else
        {g with child_wait_time := (strtoulS (line.getD 1 "")).1}

/-- `net_namespace`: NULL-guarded; frozen during reload; first-wins with a
duplicate diagnostic. -/
def net_namespace_handler (reload : Bool) (sv : Option (List String))
    (g : GlobalData) : GlobalData :=
  match sv with
  | none => g
  | some line =>
      if reload then g
      else if g.network_namespace = none then
        {g with network_namespace := some (set_value line), use_pid_dir := true}
      else
        {g with logs := g.logs ++
          ["Duplicate net_namespace definition " ++ line.getD 1 "" ++ " - ignoring"]}

/-- `instance`: NULL-guarded; frozen during reload; first-wins with a
duplicate diagnostic. -/
def instance_handler (reload : Bool) (sv : Option (List String))
    (g : GlobalData) : GlobalData :=
  match sv with
  | none => g
  | some line =>
      if reload then g
      else if g.instance_name = none then
        {g with instance_name := some (set_value line), use_pid_dir := true}
      else
        {g with logs := g.logs ++
          ["Duplicate instance definition " ++ line.getD 1 "" ++ " - ignoring"]}

/-! ## Sub-option pair lines for the ordering analysis of lvs_timeouts -/

/-- The token line fragment spelled by a list of sub-keyword/value pairs. -/
def flatPairs : List (String × String) → List String
  | [] => []
  | (k, v) :: ps => k :: v :: flatPairs ps

/-- Effect of one recognized sub-keyword/value pair on the configuration
(identity on an unrecognized keyword). -/
def applyPair (g : GlobalData) (p : String × String) : GlobalData :=
  if p.1 = "tcp" then applyTcp p.2 g
  else if p.1 = "tcpfin" then applyTcpfin p.2 g
  else if p.1 = "udp" then applyUdp p.2 g
  else g

/-- The three timeout fields tuned by `lvs_timeouts`. -/
def lvsTriple (g : GlobalData) : Int × Int × Int :=
  (g.lvs_tcp_timeout, g.lvs_tcpfin_timeout, g.lvs_udp_timeout)

/-- New value of the tcp timeout after a `tcp <v>` pair. -/
def tcpVal (v : String) (old : Int) : Int :=
  if (strtolS v).2 ≠ [] ∨ (strtolS v).1 < 0 ∨ (strtolS v).1 > LVS_MAX_TIMEOUT then old
  else (strtolS v).1

/-- New value of the tcpfin or udp timeout after its pair (both use range
1..`LVS_MAX_TIMEOUT`). -/
def finUdpVal (v : String) (old : Int) : Int :=
  if (strtolS v).2 ≠ [] ∨ (strtolS v).1 < 1 ∨ (strtolS v).1 > LVS_MAX_TIMEOUT then old
  else (strtolS v).1

/-- Action of one pair on the timeout triple alone. -/
def triApply (t : Int × Int × Int) (p : String × String) : Int × Int × Int :=
  if p.1 = "tcp" then (tcpVal p.2 t.1, t.2.1, t.2.2)
  else if p.1 = "tcpfin" then (t.1, finUdpVal p.2 t.2.1, t.2.2)
  else if p.1 = "udp" then (t.1, t.2.1, finUdpVal p.2 t.2.2)
  else t

/-! ## Support lemmas -/

theorem ite_lt_one_max (v : Nat) : (if v < 1 then 1 else v) = max 1 v := by
  rcases Nat.eq_zero_or_pos v with h | h
  · subst h; rfl
  · rw [if_neg (by omega), Nat.max_eq_right h]

theorem flatPairs_length (ps : List (String × String)) :
    (flatPairs ps).length = 2 * ps.length := by
  induction ps with
  | nil => rfl
  | cons p ps ih =>
      obtain ⟨k, v⟩ := p
      simp only [flatPairs, List.length_cons, ih]
      omega

theorem lvsTriple_applyPair (g : GlobalData) (p : String × String) :
    lvsTriple (applyPair g p) = triApply (lvsTriple g) p := by
  unfold applyPair triApply applyTcp applyTcpfin applyUdp tcpVal finUdpVal lvsTriple
  split_ifs <;> rfl

theorem scan_flatPairs : ∀ (ps : List (String × String)) (g : GlobalData),
    (∀ p ∈ ps, p.1 = "tcp" ∨ p.1 = "tcpfin" ∨ p.1 = "udp") →
    lvsTimeoutsScan (flatPairs ps) g = ps.foldl applyPair g := by
  intro ps
  induction ps with
  | nil => intro g _; rfl
  | cons p ps ih =>
      intro g hrec
      obtain ⟨k, v⟩ := p
      have hk := hrec (k, v) (List.mem_cons_self _ _)
      have hrest : ∀ q ∈ ps, q.1 = "tcp" ∨ q.1 = "tcpfin" ∨ q.1 = "udp" :=
        fun q hq => hrec q (List.mem_cons_of_mem _ hq)
      simp only at hk
      rcases hk with rfl | rfl | rfl <;>
        simp [flatPairs, lvsTimeoutsScan, applyPair, ih _ hrest]

theorem lvsTriple_foldl : ∀ (ps : List (String × String)) (g : GlobalData),
    lvsTriple (ps.foldl applyPair g) = ps.foldl triApply (lvsTriple g) := by
  intro ps
  induction ps with
  | nil => intro g; rfl
  | cons p ps ih =>
      intro g
      rw [List.foldl_cons, List.foldl_cons, ih, lvsTriple_applyPair]

theorem triApply_comm (p q : String × String) (h : p.1 ≠ q.1 ∨ p = q)
    (t : Int × Int × Int) :
    triApply (triApply t p) q = triApply (triApply t q) p := by
  rcases h with h | rfl
  · obtain ⟨a, b, c⟩ := t
    unfold triApply
    split_ifs <;> simp_all
  · rfl

/-! ## Claim C1: ordering of the lvs_timeouts sub-option scanner -/

/-- C1 (counterexample): two token lines holding the same set of recognized
sub-keyword/value pairs in different orders — here the set
(tcp, 10), (tcp, 20) — do not always yield identical tuned timeout fields:
the scanner is last-write-wins on a repeated sub-keyword, so the orders
produce tcp timeouts 20 and 10 respectively. -/
theorem C1_order_counterexample :
    List.Perm [(("tcp":String), ("10":String)), ("tcp", "20")] [("tcp", "20"), ("tcp", "10")] ∧
    lvsTriple (lvs_timeouts (some ("lvs_timeouts" :: flatPairs [("tcp", "10"), ("tcp", "20")])) initGD) ≠
      lvsTriple (lvs_timeouts (some ("lvs_timeouts" :: flatPairs [("tcp", "20"), ("tcp", "10")])) initGD) := by
  constructor
  · decide
  · decide

/-- C1 (amended): the lvs_timeouts sub-option scanner is order-independent
for token lines made of recognized sub-keyword/value pairs whose
sub-keywords are pairwise distinct: for any permutation of such a pair list,
running the handler from the same starting configuration yields identical
lvs_tcp_timeout, lvs_tcpfin_timeout and lvs_udp_timeout fields. -/
theorem C1_order_independent_distinct_keys (ps1 ps2 : List (String × String))
    (g : GlobalData) (hperm : List.Perm ps1 ps2)
    (hrec : ∀ p ∈ ps1, p.1 = "tcp" ∨ p.1 = "tcpfin" ∨ p.1 = "udp")
    (hnd : (ps1.map Prod.fst).Nodup) :
    lvsTriple (lvs_timeouts (some ("lvs_timeouts" :: flatPairs ps1)) g) =
      lvsTriple (lvs_timeouts (some ("lvs_timeouts" :: flatPairs ps2)) g) := by
  have hrec2 : ∀ p ∈ ps2, p.1 = "tcp" ∨ p.1 = "tcpfin" ∨ p.1 = "udp" :=
    fun p hp => hrec p (hperm.mem_iff.mpr hp)
  by_cases hnil : ps1 = []
  · subst hnil
    have h2 : ps2 = [] := hperm.symm.eq_nil
    subst h2
    rfl
  · have hpos : 0 < ps1.length := List.length_pos.mpr hnil
    have hlen1 : ¬ (("lvs_timeouts" :: flatPairs ps1).length < 3) := by
      simp only [List.length_cons, flatPairs_length]
      omega
    have hlen2 : ¬ (("lvs_timeouts" :: flatPairs ps2).length < 3) := by
      simp only [List.length_cons, flatPairs_length, ← hperm.length_eq]
      omega
    have comm : ∀ x ∈ ps1, ∀ y ∈ ps1, ∀ (z : Int × Int × Int),
        triApply (triApply z x) y = triApply (triApply z y) x := by
      intro x hx y hy z
      by_cases hxy : x.1 = y.1
      · have hxe : x = y := List.inj_on_of_nodup_map hnd hx hy hxy
        subst hxe
        rfl
      · exact triApply_comm x y (Or.inl hxy) z
    unfold lvs_timeouts
    simp only [Option.getD_some]
    rw [if_neg hlen1, if_neg hlen2, List.tail_cons, List.tail_cons,
      scan_flatPairs ps1 g hrec, scan_flatPairs ps2 g hrec2,
      lvsTriple_foldl, lvsTriple_foldl]
    exact hperm.foldl_eq' comm (lvsTriple g)

/-- C1 (witness): the amended order-independence theorem applied to the
spec's own example, tcp 10 / udp 5 in either order. -/
theorem C1_order_witness :
    List.Perm [(("tcp":String), ("10":String)), ("udp", "5")] [("udp", "5"), ("tcp", "10")] ∧
    lvsTriple (lvs_timeouts (some ("lvs_timeouts" :: flatPairs [("tcp", "10"), ("udp", "5")])) initGD) =
      lvsTriple (lvs_timeouts (some ("lvs_timeouts" :: flatPairs [("udp", "5"), ("tcp", "10")])) initGD) :=
  ⟨by decide,
   C1_order_independent_distinct_keys [("tcp", "10"), ("udp", "5")] [("udp", "5"), ("tcp", "10")]
     initGD (by decide) (by decide) (by decide)⟩

/-! ## Claim C2: lvs_sync_daemon partial failure -/

/-- C2: on the token line `lvs_sync_daemon eth0 VI_1 id 9999` the handler
leaves the syncid field at its default while still setting the interface and
vrrp-instance names from the two mandatory leading arguments; and in
general, a validation failure of a numeric sub-keyword's value (here: a
value with trailing non-numeric characters) logs a diagnostic naming the
sub-keyword and value, leaves the field untouched and advances the cursor by
two tokens, continuing the scan of subsequent sub-keywords. -/
theorem C2_syncd_partial_failure :
    ((lvs_syncd_handler (some ["lvs_sync_daemon", "eth0", "VI_1", "id", "9999"]) initGD).lvs_syncd_syncid
        = initGD.lvs_syncd_syncid ∧
      (lvs_syncd_handler (some ["lvs_sync_daemon", "eth0", "VI_1", "id", "9999"]) initGD).lvs_syncd_ifname
        = some "eth0" ∧
      (lvs_syncd_handler (some ["lvs_sync_daemon", "eth0", "VI_1", "id", "9999"]) initGD).lvs_syncd_vrrp_name
        = some "VI_1") ∧
    (∀ (k v : String) (rest : List String) (g : GlobalData),
      (k = "id" ∨ k = "maxlen" ∨ k = "port" ∨ k = "ttl") →
      (strtoulS v).2 ≠ [] →
      lvsSyncdScan (k :: v :: rest) g =
        lvsSyncdScan rest {g with logs := g.logs ++ [subKeyInvalidMsg k v]}) := by
  constructor
  · exact ⟨by decide, by decide, by decide⟩
  · intro k v rest g hk hv
    rcases hk with rfl | rfl | rfl | rfl <;> simp [lvsSyncdScan, hv, subKeyInvalidMsg]

/-- C2 (witness): the general partial-failure clause at the concrete invalid
value `12x` for sub-keyword `id`, followed by a further sub-keyword. -/
theorem C2_syncd_partial_failure_witness :
    (strtoulS "12x").2 ≠ [] ∧
    lvsSyncdScan ["id", "12x", "ttl", "7"] initGD =
      lvsSyncdScan ["ttl", "7"] {initGD with logs := initGD.logs ++ [subKeyInvalidMsg "id" "12x"]} :=
  ⟨by decide,
   C2_syncd_partial_failure.2 "id" "12x" ["ttl", "7"] initGD (Or.inl rfl) (by decide)⟩

/-! ## Claim C3: priority directives and clamping -/

/-- C3 (counterexample): `vrrp_priority 100` (parseable, above the declared
range [-20, 19]) does not clamp to the nearest bound 19: `get_priority`
returns 0 on an out-of-range value and the handler stores that 0
unconditionally, overwriting the prior value 5. -/
theorem C3_priority_counterexample :
    (vrrp_prio_handler (some ["vrrp_priority", "100"])
        {initGD with vrrp_process_priority := 5}).vrrp_process_priority = 0 ∧
    (vrrp_prio_handler (some ["vrrp_priority", "100"])
        {initGD with vrrp_process_priority := 5}).vrrp_process_priority ≠ 19 ∧
    (vrrp_prio_handler (some ["vrrp_priority", "100"])
        {initGD with vrrp_process_priority := 5}).vrrp_process_priority ≠ 5 ∧
    (vrrp_prio_handler (some ["vrrp_priority", "100"])
        {initGD with vrrp_process_priority := 5}).logs =
      ["Invalid vrrp process priority specified"] := by
  refine ⟨by decide, by decide, by decide, by decide⟩

/-- C3 (amended): the real-time-priority directives clamp a parseable
argument outside the scheduler bounds [mn, mx] to the nearest bound with one
corrective diagnostic; the plain process-priority directives instead store 0
(with a diagnostic) on a parseable argument outside [-20, 19], overwriting
the field rather than clamping or rejecting. -/
theorem C3_priority_amended :
    (∀ (mn mx : Int) (s : String) (g : GlobalData),
        0 ≤ mn → mn ≤ mx → atoiS s < mn →
        (vrrp_rt_priority_handler mn mx (some ["vrrp_rt_priority", s]) g).vrrp_realtime_priority = mn ∧
        (vrrp_rt_priority_handler mn mx (some ["vrrp_rt_priority", s]) g).logs.length
          = g.logs.length + 1) ∧
    (∀ (mn mx : Int) (s : String) (g : GlobalData),
        0 ≤ mn → mn ≤ mx → mx < atoiS s →
        (vrrp_rt_priority_handler mn mx (some ["vrrp_rt_priority", s]) g).vrrp_realtime_priority = mx ∧
        (vrrp_rt_priority_handler mn mx (some ["vrrp_rt_priority", s]) g).logs.length
          = g.logs.length + 1) ∧
    (∀ (s : String) (g : GlobalData),
        atoiS s < -20 ∨ atoiS s > 19 →
        (vrrp_prio_handler (some ["vrrp_priority", s]) g).vrrp_process_priority = 0 ∧
        (vrrp_prio_handler (some ["vrrp_priority", s]) g).logs.length = g.logs.length + 1) := by
  refine ⟨?_, ?_, ?_⟩
  · intro mn mx s g h0 hle hlt
    have hgt : ¬ (mn > mx) := not_lt.mpr hle
    simp [vrrp_rt_priority_handler, get_realtime_priority, hlt, hgt, h0]
  · intro mn mx s g h0 hle hgt
    have hnlt : ¬ (atoiS s < mn) := by omega
    have h0' : (0:Int) ≤ mx := le_trans h0 hle
    simp [vrrp_rt_priority_handler, get_realtime_priority, hnlt, hgt, h0']
  · intro s g hout
    have : atoiS s < -20 ∨ atoiS s > 19 := hout
    simp [vrrp_prio_handler, get_priority, this]

/-- C3 (witness): the amended behaviour at concrete inputs — real-time
priority 120 clamps to the maximum 99 (bounds 1..99), real-time priority -5
clamps to the minimum 1, and plain priority 100 is stored as 0. -/
theorem C3_priority_witness :
    ((vrrp_rt_priority_handler 1 99 (some ["vrrp_rt_priority", "-5"]) initGD).vrrp_realtime_priority = 1 ∧
      (vrrp_rt_priority_handler 1 99 (some ["vrrp_rt_priority", "-5"]) initGD).logs.length
        = initGD.logs.length + 1) ∧
    ((vrrp_rt_priority_handler 1 99 (some ["vrrp_rt_priority", "120"]) initGD).vrrp_realtime_priority = 99 ∧
      (vrrp_rt_priority_handler 1 99 (some ["vrrp_rt_priority", "120"]) initGD).logs.length
        = initGD.logs.length + 1) ∧
    ((vrrp_prio_handler (some ["vrrp_priority", "100"]) initGD).vrrp_process_priority = 0 ∧
      (vrrp_prio_handler (some ["vrrp_priority", "100"]) initGD).logs.length
        = initGD.logs.length + 1) :=
  ⟨C3_priority_amended.1 1 99 "-5" initGD (by decide) (by decide) (by decide),
   C3_priority_amended.2.1 1 99 "120" initGD (by decide) (by decide) (by decide),
   C3_priority_amended.2.2 "100" initGD (Or.inr (by decide))⟩

/-! ## Claim C4: multicast-group validation -/

/-- C4 (counterexample): `vrrp_mcast_group4 10.1.2.3` — a token resolving to
a unicast IPv4 address — sets the multicast-group field to that unicast
address and emits no diagnostic: the handler performs no
multicast-membership validation at all. -/
theorem C4_mcast_counterexample :
    (vrrp_mcast_group4_handler (some ["vrrp_mcast_group4", "10.1.2.3"]) initGD).logs = initGD.logs ∧
    (vrrp_mcast_group4_handler (some ["vrrp_mcast_group4", "10.1.2.3"]) initGD).vrrp_mcast_group4
      = SockAddr.v4 167838211 ∧
    isMulticastV4 167838211 = false ∧
    SockAddr.v4 167838211 ≠ initGD.vrrp_mcast_group4 := by
  refine ⟨by decide, by decide, by decide, by decide⟩

/-- C4 (amended): `vrrp_mcast_group4` stores whatever address token 1
resolves to, multicast or not, with no diagnostic on success; the
multicast-membership validation described by the spec exists only in the
`group` sub-option of `lvs_sync_daemon`, which forces the field back to
unspecified (with a diagnostic naming the address) when the resolved address
is not multicast for its family. -/
theorem C4_mcast_amended :
    (∀ (g : GlobalData) (s : String) (a : SockAddr),
        inet_stosockaddr s = some a →
        vrrp_mcast_group4_handler (some ["vrrp_mcast_group4", s]) g =
          {g with vrrp_mcast_group4 := a}) ∧
    (∀ (g : GlobalData) (s : String) (a : Nat),
        inet_stosockaddr s = some (SockAddr.v4 a) → isMulticastV4 a = false →
        (groupApply s g).lvs_syncd_mcast_group = SockAddr.unspec ∧
        (groupApply s g).logs = g.logs ++
          ["lvs_sync_daemon group address " ++ s ++ " is not multicast - ignoring"]) := by
  constructor
  · intro g s a h
    simp [vrrp_mcast_group4_handler, slotD, h]
  · intro g s a h hm
    simp [groupApply, h, hm]

/-- C4 (witness): the amended theorem at concrete inputs — storing the
multicast default 224.0.0.18 via `vrrp_mcast_group4`, and the lvs
sync-daemon `group` sub-option resetting the field on unicast 10.9.9.9. -/
theorem C4_mcast_witness :
    inet_stosockaddr "224.0.0.18" = some (SockAddr.v4 3758096402) ∧
    vrrp_mcast_group4_handler (some ["vrrp_mcast_group4", "224.0.0.18"]) initGD =
      {initGD with vrrp_mcast_group4 := SockAddr.v4 3758096402} ∧
    inet_stosockaddr "10.9.9.9" = some (SockAddr.v4 168364297) ∧
    isMulticastV4 168364297 = false ∧
    (groupApply "10.9.9.9" initGD).lvs_syncd_mcast_group = SockAddr.unspec ∧
    (groupApply "10.9.9.9" initGD).logs = initGD.logs ++
      ["lvs_sync_daemon group address 10.9.9.9 is not multicast - ignoring"] :=
  ⟨by decide,
   C4_mcast_amended.1 initGD "224.0.0.18" (SockAddr.v4 3758096402) (by decide),
   by decide,
   by decide,
   (C4_mcast_amended.2 initGD "10.9.9.9" 168364297 (by decide) (by decide)).1,
   (C4_mcast_amended.2 initGD "10.9.9.9" 168364297 (by decide) (by decide)).2⟩

/-! ## Claim C5: non-priority numeric directives on malformed input -/

/-- C5 (counterexample): `smtp_connect_timeout abc` — a token that is not a
number at all — does not leave the field at its prior value and emits no
diagnostic: the handler stores `strtoul`'s result 0 unconditionally. -/
theorem C5_numeric_counterexample :
    (smtpto_handler (some ["smtp_connect_timeout", "abc"])
        {initGD with smtp_connection_to := 30 * TIMER_HZ}).smtp_connection_to = 0 ∧
    (smtpto_handler (some ["smtp_connect_timeout", "abc"])
        {initGD with smtp_connection_to := 30 * TIMER_HZ}).smtp_connection_to ≠ 30 * TIMER_HZ ∧
    (smtpto_handler (some ["smtp_connect_timeout", "abc"])
        {initGD with smtp_connection_to := 30 * TIMER_HZ}).logs = initGD.logs := by
  refine ⟨by decide, by decide, by decide⟩

/-- C5 (amended): `smtp_connect_timeout` and the `vrrp_garp_*` delay/repeat
handlers store the `strtoul` result of token 1 unconditionally — no
trailing-character check, no range check, no diagnostic — while validated
numeric directives such as `child_wait_time` reject a token with trailing
non-numeric characters, leaving the field at its prior value with a
diagnostic including the offending value. -/
theorem C5_numeric_amended :
    (∀ (s : String) (g : GlobalData),
        smtpto_handler (some ["smtp_connect_timeout", s]) g =
          {g with smtp_connection_to := (strtoulS s).1 * TIMER_HZ % 2 ^ 64}) ∧
    (∀ (s : String) (g : GlobalData),
        vrrp_garp_delay_handler (some ["vrrp_garp_master_delay", s]) g =
          {g with vrrp_garp_delay := (strtoulS s).1 % 2 ^ 32 * TIMER_HZ % 2 ^ 32}) ∧
    (∀ (s : String) (g : GlobalData),
        (strtoulS s).2 ≠ [] →
        child_wait_handler (some ["child_wait_time", s]) g =
          {g with logs := g.logs ++ ["Invalid child_wait_time " ++ s]}) := by
  refine ⟨fun s g => rfl, fun s g => rfl, fun s g h => ?_⟩
  simp [child_wait_handler, h]

/-- C5 (witness): the validated-directive clause of the amended theorem at
the concrete malformed token `7sec`. -/
theorem C5_numeric_witness :
    (strtoulS "7sec").2 ≠ [] ∧
    child_wait_handler (some ["child_wait_time", "7sec"]) initGD =
      {initGD with logs := initGD.logs ++ ["Invalid child_wait_time 7sec"]} :=
  ⟨by decide, C5_numeric_amended.2.2 "7sec" initGD (by decide)⟩

/-! ## Claim C6: handlers on an absent token line -/

/-- C6 (counterexample): invoking the `lvs_flush` handler with an absent
token line is not a no-op — the handler ignores its argument entirely and
sets the flag. -/
theorem C6_empty_line_counterexample :
    lvs_flush_handler none initGD ≠ initGD ∧
    (lvs_flush_handler none initGD).lvs_flush = true ∧
    initGD.lvs_flush = false := by
  refine ⟨by decide, by decide, by decide⟩

/-- C6 (amended): only the handlers with an explicit absent-line guard
(`linkbeat_use_polling`, `use_pid_dir`, `child_wait_time`, `net_namespace`,
`instance`, ...) are no-ops on an absent token line; unconditional
flag-setting handlers such as `lvs_flush` mutate the configuration even
then (and value handlers read token slots unconditionally, which is
undefined behaviour in the C code). -/
theorem C6_empty_line_amended (g : GlobalData) (r : Bool) :
    use_polling_handler none g = g ∧
    use_pid_dir_handler none g = g ∧
    child_wait_handler none g = g ∧
    net_namespace_handler r none g = g ∧
    instance_handler r none g = g ∧
    lvs_flush_handler none g = {g with lvs_flush := true} :=
  ⟨rfl, rfl, rfl, rfl, rfl, rfl⟩

/-! ## Claim C7: first-wins instance directive -/

/-- C7: in a non-reload pass, processing `instance foo` then `instance bar`
from a configuration with no instance name yet leaves the instance name at
`foo` and emits exactly one diagnostic, on the second occurrence. -/
theorem C7_instance_first_wins (g : GlobalData) (h : g.instance_name = none) :
    (instance_handler false (some ["instance", "bar"])
        (instance_handler false (some ["instance", "foo"]) g)).instance_name = some "foo" ∧
    (instance_handler false (some ["instance", "foo"]) g).logs = g.logs ∧
    (instance_handler false (some ["instance", "bar"])
        (instance_handler false (some ["instance", "foo"]) g)).logs =
      g.logs ++ ["Duplicate instance definition bar - ignoring"] := by
  simp [instance_handler, set_value, h]

/-- C7 (witness): the first-wins property from the fresh configuration. -/
theorem C7_instance_first_wins_witness :
    (instance_handler false (some ["instance", "bar"])
        (instance_handler false (some ["instance", "foo"]) initGD)).instance_name = some "foo" ∧
    (instance_handler false (some ["instance", "foo"]) initGD).logs = initGD.logs ∧
    (instance_handler false (some ["instance", "bar"])
        (instance_handler false (some ["instance", "foo"]) initGD)).logs =
      initGD.logs ++ ["Duplicate instance definition bar - ignoring"] :=
  C7_instance_first_wins initGD rfl

/-! ## Claim C8: the legacy positional syncid branch -/

/-- A token that is purely numeric: nonempty and all decimal digits (the
spec's wording for when the legacy branch is taken). -/
def pureNumericToken (s : String) : Bool :=
  !s.data.isEmpty && s.data.all Char.isDigit

/-- C8 (counterexample): on `lvs_sync_daemon eth0 VI_1 5x` the legacy
positional-id branch is taken — its deprecation diagnostic is emitted —
although `5x` is not purely numeric: the C test reads only the first
character of the token. -/
theorem C8_legacy_counterexample :
    pureNumericToken "5x" = false ∧
    syncidDeprecationMsg ∈
      (lvs_syncd_handler (some ["lvs_sync_daemon", "eth0", "VI_1", "5x"]) initGD).logs := by
  refine ⟨by decide, by decide⟩

/-- C8 (amended): after the mandatory checks pass, the legacy branch of
`lvs_sync_daemon` is taken exactly when the line has a token after the two
mandatory leading arguments and that token's first character is a decimal
digit: the token is then range-checked as a legacy identifier after a
deprecation diagnostic and the named sub-keyword scan starts one token
later; otherwise the scan starts at that token. -/
theorem C8_legacy_amended (ifn vn tok : String) (rest : List String) (g : GlobalData)
    (h1 : g.lvs_syncd_ifname = none)
    (h2 : ifn.length < IP_VS_IFNAME_MAXLEN)
    (h3 : vn.length < IP_VS_IFNAME_MAXLEN) :
    lvs_syncd_handler (some ("lvs_sync_daemon" :: ifn :: vn :: tok :: rest)) g =
      (if firstCharIsDigit tok then
        lvsSyncdScan rest
          (legacySyncid tok
            {g with lvs_syncd_ifname := some ifn, lvs_syncd_vrrp_name := some vn,
                    logs := g.logs ++ [syncidDeprecationMsg]})
      else
        lvsSyncdScan (tok :: rest)
          {g with lvs_syncd_ifname := some ifn, lvs_syncd_vrrp_name := some vn}) := by
  have hlen : ¬ (("lvs_sync_daemon" :: ifn :: vn :: tok :: rest).length < 3) := by
    simp only [List.length_cons]
    omega
  have h2' : ¬ (IP_VS_IFNAME_MAXLEN ≤ ifn.length) := by omega
  have h3' : ¬ (IP_VS_IFNAME_MAXLEN ≤ vn.length) := by omega
  have h4 : (4:Nat) ≤ ("lvs_sync_daemon" :: ifn :: vn :: tok :: rest).length := by
    simp only [List.length_cons]
    omega
  by_cases hd : firstCharIsDigit tok
  · simp [lvs_syncd_handler, set_value, h1, hlen, h2', h3', h4, hd]
  · simp [lvs_syncd_handler, set_value, h1, hlen, h2', h3', h4, hd]

/-- C8 (witness): the amended dispatch at the concrete legacy line
`lvs_sync_daemon eth0 VI_1 7`. -/
theorem C8_legacy_witness :
    initGD.lvs_syncd_ifname = none ∧
    ("eth0" : String).length < IP_VS_IFNAME_MAXLEN ∧
    ("VI_1" : String).length < IP_VS_IFNAME_MAXLEN ∧
    lvs_syncd_handler (some ["lvs_sync_daemon", "eth0", "VI_1", "7"]) initGD =
      (if firstCharIsDigit "7" then
        lvsSyncdScan []
          (legacySyncid "7"
            {initGD with lvs_syncd_ifname := some "eth0", lvs_syncd_vrrp_name := some "VI_1",
                         logs := initGD.logs ++ [syncidDeprecationMsg]})
      else
        lvsSyncdScan ["7"]
          {initGD with lvs_syncd_ifname := some "eth0", lvs_syncd_vrrp_name := some "VI_1"}) :=
  ⟨rfl, by decide, by decide,
   C8_legacy_amended "eth0" "VI_1" "7" [] initGD rfl (by decide) (by decide)⟩

/-! ## Claim C9: fixed-capacity string directives -/

/-- C9 (counterexample): `vrrp_iptables` with an over-length chain name is
rejected with a diagnostic, but the destination field does not retain its
prior value `PREV`: the handler clears both chain-name fields before
validating, so the field is left empty. -/
theorem C9_iptables_counterexample :
    (vrrp_iptables_handler (some ["vrrp_iptables", "aaaaaaaaaaaaaaaaaaaaaaaaaaaaaaaaaaa"])
        {initGD with vrrp_iptables_inchain := "PREV"}).vrrp_iptables_inchain = "" ∧
    (vrrp_iptables_handler (some ["vrrp_iptables", "aaaaaaaaaaaaaaaaaaaaaaaaaaaaaaaaaaa"])
        {initGD with vrrp_iptables_inchain := "PREV"}).vrrp_iptables_inchain ≠ "PREV" ∧
    (vrrp_iptables_handler (some ["vrrp_iptables", "aaaaaaaaaaaaaaaaaaaaaaaaaaaaaaaaaaa"])
        {initGD with vrrp_iptables_inchain := "PREV"}).logs =
      initGD.logs ++ ["VRRP Error : iptables in chain name too long - ignored"] := by
  refine ⟨by decide, by decide, by decide⟩

/-- C9 (amended): an in-chain name at or beyond the buffer capacity is
rejected with a diagnostic and is not truncated into the field, but the
handler has already reset both chain-name fields to the empty string, so on
the rejected line the fields end up empty rather than at their prior
values. -/
theorem C9_iptables_amended (g : GlobalData) (s : String) (rest : List String)
    (h : IPTABLES_CHAIN_BUF_LEN - 1 ≤ s.length) :
    vrrp_iptables_handler (some ("vrrp_iptables" :: s :: rest)) g =
      {g with vrrp_iptables_inchain := "", vrrp_iptables_outchain := "",
              logs := g.logs ++ ["VRRP Error : iptables in chain name too long - ignored"]} := by
  have h2 : (2:Nat) ≤ ("vrrp_iptables" :: s :: rest).length := by
    simp only [List.length_cons]
    omega
  simp [vrrp_iptables_handler, h2, h]

/-- C9 (witness): the amended theorem at a concrete 31-character name. -/
theorem C9_iptables_witness :
    IPTABLES_CHAIN_BUF_LEN - 1 ≤ ("aaaaaaaaaaaaaaaaaaaaaaaaaaaaaaa" : String).length ∧
    vrrp_iptables_handler (some ["vrrp_iptables", "aaaaaaaaaaaaaaaaaaaaaaaaaaaaaaa"]) initGD =
      {initGD with vrrp_iptables_inchain := "", vrrp_iptables_outchain := "",
                   logs := initGD.logs ++ ["VRRP Error : iptables in chain name too long - ignored"]} :=
  ⟨by decide,
   C9_iptables_amended initGD "aaaaaaaaaaaaaaaaaaaaaaaaaaaaaaa" [] (by decide)⟩

/-! ## Claim C10: garp repeat fields are at least one -/

/-- C10: after any invocation of the `vrrp_garp_master_repeat` or
`vrrp_garp_master_refresh_repeat` handler on a token line, the corresponding
field equals `max 1` of the parsed (32-bit) value — so it is at least 1, any
parsed value below 1 (including the 0 produced by an unparseable token) is
silently raised to 1, and no diagnostic is emitted. -/
theorem C10_garp_rep_min_one (line : List String) (g : GlobalData) :
    ((vrrp_garp_rep_handler (some line) g).vrrp_garp_rep =
        max 1 ((strtoulS (slotD (some line) 1)).1 % 2 ^ 32) ∧
      1 ≤ (vrrp_garp_rep_handler (some line) g).vrrp_garp_rep ∧
      (vrrp_garp_rep_handler (some line) g).logs = g.logs) ∧
    ((vrrp_garp_refresh_rep_handler (some line) g).vrrp_garp_refresh_rep =
        max 1 ((strtoulS (slotD (some line) 1)).1 % 2 ^ 32) ∧
      1 ≤ (vrrp_garp_refresh_rep_handler (some line) g).vrrp_garp_refresh_rep ∧
      (vrrp_garp_refresh_rep_handler (some line) g).logs = g.logs) := by
  have h1 := ite_lt_one_max ((strtoulS (slotD (some line) 1)).1 % 2 ^ 32)
  refine ⟨⟨h1, ?_, rfl⟩, ⟨h1, ?_, rfl⟩⟩ <;>
    exact le_of_le_of_eq (Nat.le_max_left 1 _) h1.symm

end KeepalivedGlobalParser
